import Mathlib

/-!
Verification development for the multi-agent Formula E race simulation
(`race_sim`): shallow embedding of `overtaking.py`, `attack_mode.py`,
`race_events.py` and `race_simulator.py`, followed by theorems about the
embedded operations.

Conventions of the embedding:
* Python floats are modelled as exact rationals (`ℚ`); float literals such
  as `0.2` become the corresponding rationals (`1/5`).
* `np.inf` values are modelled with `Option ℚ`, `none` standing for infinity.
* Python's float `%` follows the sign of the divisor (floor convention);
  it is modelled by `pymod` below.  `int(x)` truncates toward zero; every
  call site in the simulator applies it to a nonnegative quantity, where
  truncation coincides with the floor, so it is modelled by the floor.
* The shared global NumPy generator is modelled as a pair (current seed,
  index into the stream of that seed) together with a stream function
  `f : ℤ → ℕ → ℚ` giving the value of draw `idx` under seed `seed`;
  `np.random.seed s` resets the pair to `(s, 0)`.  Hypotheses `0 ≤ f s i < 1`
  model the range of `np.random.random()`.
* Fallible lookups (`car_id not in dict`) are modelled with `Option`.
-/

/-- Python float modulo: `a % b` with the floor convention (result has the
sign of the divisor), as used for track-distance wrapping. -/
def pymod (a b : ℚ) : ℚ := a - b * ⌊a / b⌋

/-- Python `int(x)` on the nonnegative quantities it is applied to in the
simulator (race times), where truncation toward zero equals the floor. -/
def pyint (q : ℚ) : ℤ := ⌊q⌋

/-- `min(x, y)` against a possibly-infinite (`none`) second argument, as in
`min(state.speed, safety_car_speed)` where the cap can be `np.inf`. -/
def minInf (a : ℚ) : Option ℚ → ℚ
  | none => a
  | some b => min a b

/-- `np.clip(x, lo, hi)`. -/
def npclip (x lo hi : ℚ) : ℚ := min (max x lo) hi

/-- The state of the shared global NumPy random generator: the seed it was
last seeded with and the number of draws consumed since. -/
structure Rng where
  seed : ℤ
  idx : ℕ
deriving DecidableEq

/-- A random stream function: value of draw `idx` of the stream for `seed`.
`np.random.random()` is modelled as reading this function. -/
def RngF : Type := ℤ → ℕ → ℚ

/-- `np.random.seed s`. -/
def npSeed (s : ℤ) (_ : Rng) : Rng := ⟨s, 0⟩

/-- `np.random.random()`: one draw from the current stream. -/
def npRandom (f : RngF) (g : Rng) : ℚ × Rng :=
  (f g.seed g.idx, ⟨g.seed, g.idx + 1⟩)

/-- `np.random.uniform(lo, hi)`. -/
def npUniform (f : RngF) (lo hi : ℚ) (g : Rng) : ℚ × Rng :=
  let (r, g') := npRandom f g
  (lo + (hi - lo) * r, g')

/-- `np.random.randint(lo, hi)`: integer uniform on `[lo, hi-1]`, modelled as
the floor of a scaled uniform draw. -/
def npRandint (f : RngF) (lo hi : ℤ) (g : Rng) : ℤ × Rng :=
  let (r, g') := npRandom f g
  (lo + ⌊r * ((hi : ℚ) - lo)⌋, g')

/-- A stream never leaving `[0, 1)`, the range of `np.random.random()`. -/
def RngFValid (f : RngF) : Prop := ∀ s i, 0 ≤ f s i ∧ f s i < 1

/-! ## `overtaking.py` -/

/-- `OvertakingAttempt` record (append-only log entry). -/
structure OvertakingAttempt where
  attacker_id : ℕ
  defender_id : ℕ
  success : Bool
  speed_differential : ℚ
  time_gain : ℚ
  timestamp : ℚ
deriving DecidableEq

/-- Result dictionary returned by `attempt_overtake`. -/
structure OvertakeResult where
  success : Bool
  speed_differential_kmh : ℚ
  time_gain : ℚ
  slipstream_active : Bool
deriving DecidableEq

/-- `OvertakingModel` state: configuration constants set in `__init__` and
the append-only history. An `Option ℚ` upper bound of `none` stands for the
`np.inf` in the last row of `success_probabilities`. -/
structure OvertakingModel where
  track_length : ℚ
  min_speed_diff : ℚ
  slipstream_distance : ℚ
  slipstream_drag_reduction : ℚ
  success_probabilities : List (ℚ × Option ℚ × ℚ)
  attack_mode_power_boost : ℚ
  attack_mode_speed_advantage : ℚ
  overtaking_history : List OvertakingAttempt
deriving DecidableEq

/-- `OvertakingModel.__init__` (the optional re-seeding of the global
generator is done by the caller). -/
def mkOvertakingModel (trackLength : ℚ) : OvertakingModel :=
  { track_length := trackLength
    min_speed_diff := 5
    slipstream_distance := 1
    slipstream_drag_reduction := 1/20
    success_probabilities := [(5, some 10, 1/5), (10, some 15, 1/2), (15, none, 4/5)]
    attack_mode_power_boost := 50
    attack_mode_speed_advantage := 8
    overtaking_history := [] }

/-- `calculate_slipstream_effect`. -/
def calculate_slipstream_effect (om : OvertakingModel) (gapSeconds baseDrag : ℚ) : ℚ :=
  if gapSeconds ≤ om.slipstream_distance then
    baseDrag * (1 - om.slipstream_drag_reduction * (1 - gapSeconds / om.slipstream_distance))
  else baseDrag

/-- The `for min_diff, max_diff, prob in self.success_probabilities` lookup
loop, with the `0.95` fallback when no row matches. -/
def probLookup : List (ℚ × Option ℚ × ℚ) → ℚ → ℚ
  | [], _ => 19/20
  | (lo, none, p) :: rest, d => if lo ≤ d then p else probLookup rest d
  | (lo, some hi, p) :: rest, d => if lo ≤ d ∧ d < hi then p else probLookup rest d

/-- `get_overtaking_success_probability`. -/
def get_overtaking_success_probability (om : OvertakingModel) (speedDiffKmh : ℚ)
    (attackerHasAttackMode defenderHasAttackMode : Bool) : ℚ :=
  let d1 := if attackerHasAttackMode then speedDiffKmh + om.attack_mode_speed_advantage
            else speedDiffKmh
  let d2 := if defenderHasAttackMode then d1 - om.attack_mode_speed_advantage else d1
  if d2 < om.min_speed_diff then 0
  else probLookup om.success_probabilities d2

/-- `attempt_overtake`.  `f`/`g` thread the global generator: the success
draw is consumed only when the raw differential reaches the threshold, as in
the source (the below-threshold path returns before any draw). -/
def attempt_overtake (f : RngF) (om : OvertakingModel) (attackerId defenderId : ℕ)
    (attackerSpeed defenderSpeed gapSeconds _trackPosition : ℚ)
    (attackerHasAttackMode defenderHasAttackMode : Bool) (timestamp : ℚ)
    (g : Rng) : OvertakingModel × OvertakeResult × Rng :=
  let attackerSpeedKmh := attackerSpeed * (18/5)
  let defenderSpeedKmh := defenderSpeed * (18/5)
  let speedDiffKmh := attackerSpeedKmh - defenderSpeedKmh
  if speedDiffKmh < om.min_speed_diff then
    (om,
     { success := false
       speed_differential_kmh := speedDiffKmh
       time_gain := 0
       slipstream_active := decide (gapSeconds ≤ om.slipstream_distance) }, g)
  else
    let slipstreamActive := decide (gapSeconds ≤ om.slipstream_distance)
    let successProb := get_overtaking_success_probability om speedDiffKmh
      attackerHasAttackMode defenderHasAttackMode
    let (r, g') := npRandom f g
    let success := decide (r < successProb)
    let speedDiffMs := speedDiffKmh / (18/5)
    let overtakingDistance : ℚ := 250
    let timeGain :=
      if success then
        max 0 (overtakingDistance / (attackerSpeed + speedDiffMs / 2) -
               overtakingDistance / defenderSpeed)
      else 0
    let attempt : OvertakingAttempt :=
      { attacker_id := attackerId
        defender_id := defenderId
        success := success
        speed_differential := speedDiffKmh
        time_gain := timeGain
        timestamp := timestamp }
    ({ om with overtaking_history := om.overtaking_history ++ [attempt] },
     { success := success
       speed_differential_kmh := speedDiffKmh
       time_gain := timeGain
       slipstream_active := slipstreamActive }, g')

/-- `can_overtake`. -/
def can_overtake (om : OvertakingModel) (attackerSpeed defenderSpeed gapSeconds : ℚ) : Bool :=
  decide (om.min_speed_diff ≤ (attackerSpeed - defenderSpeed) * (18/5)) &&
  decide (gapSeconds ≤ 2)

/-! ## `attack_mode.py` -/

/-- `AttackModeState` enum. -/
inductive AttackModeState where
  | available
  | activating
  | active
  | used
deriving DecidableEq

/-- `AttackModeActivation` record. -/
structure AttackModeActivation where
  car_id : ℕ
  activation_lap : ℕ
  activation_time : ℚ
  duration : ℚ
  time_loss : ℚ
  power_boost : ℚ
deriving DecidableEq

/-- Per-car `AttackMode` state. -/
structure AttackMode where
  car_id : ℕ
  activation_zone_start : ℚ
  activation_zone_end : ℚ
  base_power_kw : ℚ
  attack_mode_power_kw : ℚ
  max_activations : ℕ
  activation_duration : ℚ
  activation_time_loss : ℚ
  state : AttackModeState
  activations_remaining : ℤ
  current_activation_start_time : Option ℚ
  current_activation_lap : Option ℕ
  activation_history : List AttackModeActivation
deriving DecidableEq

/-- `AttackMode.__init__`: seeds the global generator with `seed + car_id`
when a seed is given, then draws the activation time loss from
`uniform(0.5, 1.0)`. -/
def mkAttackMode (f : RngF) (carId : ℕ) (zoneStart zoneEnd basePower : ℚ)
    (seed : Option ℤ) (g : Rng) : AttackMode × Rng :=
  let g0 := match seed with
    | some s => npSeed (s + (carId : ℤ)) g
    | none => g
  let (timeLoss, g1) := npUniform f (1/2) 1 g0
  ({ car_id := carId
     activation_zone_start := zoneStart
     activation_zone_end := zoneEnd
     base_power_kw := basePower
     attack_mode_power_kw := 250
     max_activations := 2
     activation_duration := 240
     activation_time_loss := timeLoss
     state := AttackModeState.available
     activations_remaining := 2
     current_activation_start_time := none
     current_activation_lap := none
     activation_history := [] }, g1)

/-- `AttackMode.can_activate`: note that the zone-wrap modulus is
`zone_length + 1000.0` (marked "Approximate" in the source), not the track
length. -/
def can_activate (am : AttackMode) (_currentLap : ℕ) (_raceTime trackPosition : ℚ) :
    Bool × String :=
  if am.state = AttackModeState.used then (false, "All activations used")
  else if am.state = AttackModeState.active then (false, "Already active")
  else if am.state = AttackModeState.activating then (false, "Currently activating")
  else
    let zoneLength := am.activation_zone_end - am.activation_zone_start
    let positionInZone := pymod trackPosition (zoneLength + 1000)
    if am.activation_zone_start ≤ positionInZone ∧
       positionInZone ≤ am.activation_zone_end then
      (true, "Can activate")
    else (false, "Not in activation zone")

/-- `AttackMode.activate`. -/
def activate (am : AttackMode) (currentLap : ℕ) (raceTime trackPosition : ℚ) :
    AttackMode × Bool :=
  let (ok, _) := can_activate am currentLap raceTime trackPosition
  if ¬ok then (am, false)
  else
    let act : AttackModeActivation :=
      { car_id := am.car_id
        activation_lap := currentLap
        activation_time := raceTime
        duration := am.activation_duration
        time_loss := am.activation_time_loss
        power_boost := am.attack_mode_power_kw - am.base_power_kw }
    ({ am with
        state := AttackModeState.active
        current_activation_start_time := some raceTime
        current_activation_lap := some currentLap
        activations_remaining := am.activations_remaining - 1
        activation_history := am.activation_history ++ [act] }, true)

/-- `AttackMode.update`: expiry of an active boost. -/
def amUpdate (am : AttackMode) (raceTime : ℚ) : AttackMode × Bool :=
  if am.state = AttackModeState.active then
    match am.current_activation_start_time with
    | some t0 =>
        if am.activation_duration ≤ raceTime - t0 then
          ({ am with
              state := if 0 < am.activations_remaining then AttackModeState.available
                       else AttackModeState.used
              current_activation_start_time := none }, true)
        else (am, false)
    | none => (am, false)
  else (am, false)

/-- `AttackMode.is_active`. -/
def am_is_active (am : AttackMode) : Bool := am.state = AttackModeState.active

/-- `AttackMode.get_power_kw`. -/
def get_power_kw (am : AttackMode) : ℚ :=
  if am_is_active am then am.attack_mode_power_kw else am.base_power_kw

/-- `AttackMode.get_activations_remaining`. -/
def get_activations_remaining (am : AttackMode) : ℤ := am.activations_remaining

/-- `AttackModeManager` state. -/
structure AttackModeManager where
  num_cars : ℕ
  track_length : ℚ
  activation_zone_start : ℚ
  activation_zone_end : ℚ
  attack_modes : List AttackMode
deriving DecidableEq

/-- The `car_id not in self.attack_modes` dictionary lookup. -/
def findMode (mgr : AttackModeManager) (carId : ℕ) : Option AttackMode :=
  mgr.attack_modes.find? (fun am => am.car_id == carId)

/-- `AttackModeManager.__init__`: default zone is 20 to 25 percent of the
track, one `AttackMode` per car id in `range(num_cars)`. -/
def mkAttackModeManager (f : RngF) (numCars : ℕ) (trackLength : ℚ)
    (zoneStart zoneEnd : Option ℚ) (seed : Option ℤ) (g : Rng) :
    AttackModeManager × Rng :=
  let zs := zoneStart.getD (trackLength * (1/5))
  let ze := zoneEnd.getD (trackLength * (1/4))
  let (modes, g') := (List.range numCars).foldl
    (fun (acc : List AttackMode × Rng) carId =>
      let (am, g2) := mkAttackMode f carId zs ze 200 seed acc.2
      (acc.1 ++ [am], g2))
    ([], g)
  ({ num_cars := numCars
     track_length := trackLength
     activation_zone_start := zs
     activation_zone_end := ze
     attack_modes := modes }, g')

/-- `AttackModeManager.can_activate`. -/
def mgr_can_activate (mgr : AttackModeManager) (carId currentLap : ℕ)
    (raceTime trackPosition : ℚ) : Bool × String :=
  match findMode mgr carId with
  | none => (false, "Invalid car ID")
  | some am => can_activate am currentLap raceTime trackPosition

/-- `AttackModeManager.activate` (returns the updated manager and the flag;
the bare `False` for an unknown id is indistinguishable from a failed
activation). -/
def mgr_activate (mgr : AttackModeManager) (carId currentLap : ℕ)
    (raceTime trackPosition : ℚ) : AttackModeManager × Bool :=
  match findMode mgr carId with
  | none => (mgr, false)
  | some _ =>
      let modes := mgr.attack_modes.map (fun am =>
        if am.car_id == carId then (activate am currentLap raceTime trackPosition).1 else am)
      let ok := match findMode mgr carId with
        | none => false
        | some am => (activate am currentLap raceTime trackPosition).2
      ({ mgr with attack_modes := modes }, ok)

/-- `AttackModeManager.update_all`. -/
def mgr_update_all (mgr : AttackModeManager) (raceTime : ℚ) : AttackModeManager :=
  { mgr with attack_modes := mgr.attack_modes.map (fun am => (amUpdate am raceTime).1) }

/-- `AttackModeManager.is_active`. -/
def mgr_is_active (mgr : AttackModeManager) (carId : ℕ) : Bool :=
  match findMode mgr carId with
  | none => false
  | some am => am_is_active am

/-- `AttackModeManager.get_power_kw`: note the `200.0` default for an
unknown car id. -/
def mgr_get_power_kw (mgr : AttackModeManager) (carId : ℕ) : ℚ :=
  match findMode mgr carId with
  | none => 200
  | some am => get_power_kw am

/-- `AttackModeManager.get_activations_remaining`: note the `0` default for
an unknown car id. -/
def mgr_get_activations_remaining (mgr : AttackModeManager) (carId : ℕ) : ℤ :=
  match findMode mgr carId with
  | none => 0
  | some am => get_activations_remaining am

/-! ## `race_events.py` -/

/-- `EventType` enum. -/
inductive EventType where
  | safety_car
  | crash
  | weather_change
  | virtual_safety_car
deriving DecidableEq

/-- `SafetyCarState` enum. -/
inductive SafetyCarState where
  | deployed
  | standing
  | returning
  | clear
deriving DecidableEq

/-- `RaceEvent` log entry. -/
structure RaceEvent where
  event_type : EventType
  timestamp : ℚ
  car_id : Option ℕ
  description : String
deriving DecidableEq

/-- `RaceEvents` state (the `__init__` fields; the Python `random` module is
also seeded there but never drawn from, so it is not modelled). -/
structure RaceEvents where
  num_cars : ℕ
  track_length : ℚ
  safety_car_state : SafetyCarState
  safety_car_active : Bool
  safety_car_laps_remaining : ℤ
  safety_car_deployment_lap : Option ℕ
  safety_car_speed : ℚ
  safety_car_probability : ℚ
  crash_probability_per_car : ℚ
  weather_change_probability : ℚ
  weather_dry : Bool
  mu_weather : ℚ
  track_temperature : ℚ
  event_log : List RaceEvent
  crashed_cars : List ℕ
  total_safety_cars : ℕ
  total_crashes : ℕ
deriving DecidableEq

/-- `RaceEvents.__init__` (global-generator seeding is done by the caller). -/
def mkRaceEvents (numCars : ℕ) (trackLength : ℚ) : RaceEvents :=
  { num_cars := numCars
    track_length := trackLength
    safety_car_state := SafetyCarState.clear
    safety_car_active := false
    safety_car_laps_remaining := 0
    safety_car_deployment_lap := none
    safety_car_speed := 80 / (18/5)
    safety_car_probability := 3/100
    crash_probability_per_car := 15/1000
    weather_change_probability := 2/100
    weather_dry := true
    mu_weather := 1
    track_temperature := 25
    event_log := []
    crashed_cars := []
    total_safety_cars := 0
    total_crashes := 0 }

/-- `RaceEvents._deploy_safety_car`: duration from `randint(3, 9)`. -/
def deploy_safety_car (f : RngF) (e : RaceEvents) (lap : ℕ) (raceTime : ℚ)
    (g : Rng) : RaceEvents × Rng :=
  let (n, g') := npRandint f 3 9 g
  ({ e with
      safety_car_active := true
      safety_car_state := SafetyCarState.deployed
      safety_car_deployment_lap := some lap
      safety_car_laps_remaining := n
      total_safety_cars := e.total_safety_cars + 1
      event_log := e.event_log ++
        [{ event_type := EventType.safety_car
           timestamp := raceTime
           car_id := none
           description := "Safety car deployed on lap " ++ toString lap ++
             " for " ++ toString n ++ " laps" }] }, g')

/-- `RaceEvents._register_crash`. -/
def register_crash (e : RaceEvents) (carId : ℕ) (raceTime : ℚ) : RaceEvents :=
  { e with
      crashed_cars := e.crashed_cars ++ [carId]
      total_crashes := e.total_crashes + 1
      event_log := e.event_log ++
        [{ event_type := EventType.crash
           timestamp := raceTime
           car_id := some carId
           description := "Car " ++ toString carId ++ " crashed and retired" }] }

/-- `RaceEvents._change_weather`. -/
def change_weather (f : RngF) (e : RaceEvents) (g : Rng) : RaceEvents × Rng :=
  let (e1, g1) :=
    if e.weather_dry then
      let (gripReduction, ga) := npUniform f (15/100) (30/100) g
      let (tempDrop, gb) := npUniform f 5 15 ga
      ({ e with
          weather_dry := false
          mu_weather := 1 - gripReduction
          track_temperature := e.track_temperature - tempDrop }, gb)
    else
      let (r, ga) := npRandom f g
      if r < 3/10 then
        let (mu, gb) := npUniform f (85/100) 1 ga
        let (tempRise, gc) := npUniform f 2 8 gb
        ({ e with
            weather_dry := true
            mu_weather := mu
            track_temperature := e.track_temperature + tempRise }, gc)
      else (e, ga)
  ({ e1 with
      mu_weather := npclip e1.mu_weather (1/2) 1
      track_temperature := npclip e1.track_temperature 10 50 }, g1)

/-- The events dictionary returned by `check_lap_events`. -/
structure LapEvents where
  safety_car_deployed : Bool
  crashes : List ℕ
  weather_changed : Bool
  new_mu_weather : ℚ
deriving DecidableEq

/-- The `for car_id in active_cars` crash loop of `check_lap_events`: one
crash draw per not-yet-crashed car, a 50 percent safety-car draw after each
crash while no safety car is out (short-circuit: no draw when one is). -/
def crashLoop (f : RngF) (lap : ℕ) (raceTime : ℚ) :
    List ℕ → RaceEvents → LapEvents → Rng → RaceEvents × LapEvents × Rng
  | [], e, ev, g => (e, ev, g)
  | c :: rest, e, ev, g =>
    if c ∈ e.crashed_cars then crashLoop f lap raceTime rest e ev g
    else
      let (r, g1) := npRandom f g
      if r < e.crash_probability_per_car then
        let e1 := register_crash e c raceTime
        let ev1 := { ev with crashes := ev.crashes ++ [c] }
        if e1.safety_car_active then crashLoop f lap raceTime rest e1 ev1 g1
        else
          let (r2, g2) := npRandom f g1
          if r2 < 1/2 then
            let (e2, g3) := deploy_safety_car f e1 lap raceTime g2
            crashLoop f lap raceTime rest e2
              { ev1 with safety_car_deployed := true } g3
          else crashLoop f lap raceTime rest e1 ev1 g2
      else crashLoop f lap raceTime rest e ev g1

/-- `RaceEvents.check_lap_events`. -/
def check_lap_events (f : RngF) (e : RaceEvents) (currentLap : ℕ) (raceTime : ℚ)
    (activeCars : List ℕ) (g : Rng) : RaceEvents × LapEvents × Rng :=
  let ev0 : LapEvents :=
    { safety_car_deployed := false
      crashes := []
      weather_changed := false
      new_mu_weather := e.mu_weather }
  let (e1, ev1, g1) :=
    if e.safety_car_active then (e, ev0, g)
    else
      let (r, ga) := npRandom f g
      if r < e.safety_car_probability then
        let (e', gb) := deploy_safety_car f e currentLap raceTime ga
        (e', { ev0 with safety_car_deployed := true }, gb)
      else (e, ev0, ga)
  let (e2, ev2, g2) := crashLoop f currentLap raceTime activeCars e1 ev1 g1
  let (r, g3) := npRandom f g2
  if r < e2.weather_change_probability then
    let (e3, g4) := change_weather f e2 g3
    (e3, { ev2 with weather_changed := true, new_mu_weather := e3.mu_weather }, g4)
  else (e2, ev2, g3)

/-- `RaceEvents.update_safety_car` (the lap argument is unused in the
source). -/
def update_safety_car (e : RaceEvents) : RaceEvents :=
  if ¬e.safety_car_active then e
  else
    let remaining := e.safety_car_laps_remaining - 1
    if remaining ≤ 0 then
      if e.safety_car_state = SafetyCarState.deployed then
        { e with
            safety_car_state := SafetyCarState.returning
            safety_car_laps_remaining := 1 }
      else if e.safety_car_state = SafetyCarState.returning then
        { e with
            safety_car_active := false
            safety_car_state := SafetyCarState.clear
            safety_car_laps_remaining := 0 }
      else { e with safety_car_laps_remaining := remaining }
    else { e with safety_car_laps_remaining := remaining }

/-- `RaceEvents.get_safety_car_speed`: `none` models the `np.inf` returned
when no safety car is out. -/
def get_safety_car_speed (e : RaceEvents) : Option ℚ :=
  if e.safety_car_active then some e.safety_car_speed else none

/-! ## `race_simulator.py`

The orchestrator.  Collaborator code outside `src/` (the `laptimesim`
track/vehicle/lap-solver modules) enters only through a handful of values;
the loop itself uses simplified physics (`use_fast_mode`).  The reference
lap time computed before the loop is printed and never used afterwards, so
it is not modelled. -/

/-- `CarState` of `race_simulator.py`.  The `lap_times` list is never
written by the loop and is omitted.  The two per-car collaborator values the
loop reads — `car.pars_general["m"]` (after the skill variation) and
`car.pars_engine["eta_e_motor"]` (after the efficiency variation) — are
carried alongside the state. -/
structure CarState where
  car_id : ℕ
  position : ℕ
  lap : ℕ
  track_distance : ℚ
  track_position_normalized : ℚ
  speed : ℚ
  energy_remaining : ℚ
  race_time : ℚ
  gap_to_leader : ℚ
  gap_to_car_ahead : ℚ
  gap_to_car_behind : ℚ
  is_active : Bool
  m : ℚ
  eta_e_motor : ℚ
deriving DecidableEq

/-- `RaceState`. -/
structure RaceState where
  race_time : ℚ
  current_lap : ℕ
  leader_id : ℕ
  positions : List (ℕ × ℕ)
  safety_car_active : Bool
  weather_dry : Bool
  mu_weather : ℚ
deriving DecidableEq

/-- Simulator configuration.  `track_length` stands for the
`Track` collaborator's length and `m_base`, `eta_base` for the vehicle-file
base mass and motor efficiency.  Modelled from the spec: the spec lists
"car/driver configuration values (mass, efficiency, initial energy)" and the
track geometry as consumed from collaborators that are not part of the core
sources; they enter here as opaque configuration values.  `random_seed` is
taken as always provided (the unseeded entropy-based branch is outside the
embedding). -/
structure SimCfg where
  num_cars : ℕ
  track_length : ℚ
  race_duration_minutes : ℚ
  time_step : ℚ
  random_seed : ℤ
  m_base : ℚ
  eta_base : ℚ
deriving DecidableEq

/-- The mutable state owned by `RaceSimulator` that the race loop reads and
writes (everything except the wall-clock progress reporting). -/
structure SimCore where
  cars : List CarState
  race_events : RaceEvents
  overtaking : OvertakingModel
  attack_mode_manager : AttackModeManager
  race_state : RaceState
  last_lap_checked : Option ℕ
  race_history : List RaceState
  position_history : List (ℕ × List (ℚ × ℕ))
  rng : Rng
deriving DecidableEq

/-- Full simulator state: the race core plus the wall-clock progress
reporting (`time.perf_counter` readings only ever flow into the printed
progress lines, modelled as `progress_log`). -/
structure SimState where
  core : SimCore
  wall_idx : ℕ
  progress_log : List (ℚ × ℚ × ℕ)
deriving DecidableEq

/-- The `time.perf_counter` reading stream. -/
def WallClock : Type := ℕ → ℚ

/-- A car with no data, used to totalise dictionary lookups that cannot
fail on the ids the loop produces. -/
def dummyCar : CarState :=
  { car_id := 0, position := 0, lap := 0, track_distance := 0
    track_position_normalized := 0, speed := 0, energy_remaining := 0
    race_time := 0, gap_to_leader := 0, gap_to_car_ahead := 0
    gap_to_car_behind := 0, is_active := false, m := 0, eta_e_motor := 0 }

/-- `self.car_states[i]`. -/
def findCar (cars : List CarState) (i : ℕ) : CarState :=
  (cars.find? (fun c => c.car_id == i)).getD dummyCar

/-- `_initialize_cars`: per-car skill (mass) and efficiency variations drawn
from the shared global generator, grid-order start positions, 4.58 MJ of
initial energy. -/
def initCars (f : RngF) (cfg : SimCfg) (g : Rng) : List CarState × Rng :=
  (List.range cfg.num_cars).foldl
    (fun (acc : List CarState × Rng) carId =>
      let (skillFactor, g1) := npUniform f (98/100) (102/100) acc.2
      let (efficiencyFactor, g2) := npUniform f (97/100) (103/100) g1
      (acc.1 ++
        [{ car_id := carId
           position := carId + 1
           lap := 0
           track_distance := 0
           track_position_normalized := 0
           speed := 0
           energy_remaining := 4580000
           race_time := 0
           gap_to_leader := 0
           gap_to_car_ahead := 0
           gap_to_car_behind := 0
           is_active := true
           m := cfg.m_base * skillFactor
           eta_e_motor := cfg.eta_base * efficiencyFactor }], g2))
    ([], g)

/-- `RaceSimulator.__init__` followed by the `_initialize_cars` call made at
the start of `run_race`: the global generator is seeded by the simulator,
re-seeded by `RaceEvents` and `OvertakingModel`, and re-seeded per car by
each `AttackMode`; the car variations then continue the last stream. -/
def initSimCore (f : RngF) (cfg : SimCfg) : SimCore :=
  let g0 := npSeed cfg.random_seed ⟨0, 0⟩
  let g1 := npSeed cfg.random_seed g0
  let events := mkRaceEvents cfg.num_cars cfg.track_length
  let g2 := npSeed cfg.random_seed g1
  let om := mkOvertakingModel cfg.track_length
  let (mgr, g3) := mkAttackModeManager f cfg.num_cars cfg.track_length none none
    (some cfg.random_seed) g2
  let (cars, g4) := initCars f cfg g3
  { cars := cars
    race_events := events
    overtaking := om
    attack_mode_manager := mgr
    race_state :=
      { race_time := 0, current_lap := 0, leader_id := 0, positions := []
        safety_car_active := false, weather_dry := true, mu_weather := 1 }
    last_lap_checked := none
    race_history := []
    position_history := []
    rng := g4 }

/-- `_update_race_events`: lap-boundary event checks (guarded by the
`_last_lap_checked` attribute, absent on the first call), crash application,
weather application, then the per-step safety-car update and flag sync.
The `track.mu` rescaling touches only the unmodelled lap-time solver. -/
def sim_update_race_events (f : RngF) (s : SimCore) : SimCore :=
  let s1 :=
    match s.last_lap_checked with
    | none => { s with last_lap_checked := some 0 }
    | some l =>
      if s.race_state.current_lap ≠ l then
        let activeCars := (s.cars.filter (fun (c : CarState) => c.is_active)).map
          (fun (c : CarState) => c.car_id)
        let (e', ev, g') := check_lap_events f s.race_events s.race_state.current_lap
          s.race_state.race_time activeCars s.rng
        let cars' := s.cars.map (fun (c : CarState) =>
          if c.car_id ∈ ev.crashes then { c with is_active := false } else c)
        let rs' :=
          if ev.weather_changed then { s.race_state with mu_weather := ev.new_mu_weather }
          else s.race_state
        { s with
            cars := cars', race_events := e', race_state := rs', rng := g'
            last_lap_checked := some s.race_state.current_lap }
      else s
  let e2 := update_safety_car s1.race_events
  { s1 with
      race_events := e2
      race_state := { s1.race_state with safety_car_active := e2.safety_car_active } }

/-- The body of the `_update_cars` loop for one active car: speed capped
under safety car, simplified racing speed otherwise, position integration
and wrap, energy integration with the out-of-energy cut.  (The `track_idx`
computed in the source is dead: it is never read.) -/
def update_car (safetyCarActive : Bool) (scSpeed : Option ℚ)
    (powerKw dt trackLength : ℚ) (c : CarState) : CarState :=
  if ¬c.is_active then c
  else
    let speed :=
      if safetyCarActive then minInf c.speed scSpeed
      else
        let skillFactor := c.m / 880
        50 * (1 + (1 - skillFactor) * (1/10))
    let dist := pymod (c.track_distance + speed * dt) trackLength
    let norm := dist / trackLength
    let energy := c.energy_remaining - powerKw * 1000 * dt / (9/10)
    if energy ≤ 0 then
      { c with
          speed := speed, track_distance := dist, track_position_normalized := norm
          energy_remaining := 0, is_active := false }
    else
      { c with
          speed := speed, track_distance := dist, track_position_normalized := norm
          energy_remaining := energy }

/-- `_update_cars`. -/
def sim_update_cars (cfg : SimCfg) (s : SimCore) : SimCore :=
  let scSpeed := get_safety_car_speed s.race_events
  { s with
      cars := s.cars.map (fun c =>
        update_car s.race_state.safety_car_active scSpeed
          (mgr_get_power_kw s.attack_mode_manager c.car_id)
          cfg.time_step cfg.track_length c) }

/-- Stable insertion into a list sorted by the Boolean preorder `le`. -/
def insertSorted (le : α → α → Bool) (a : α) : List α → List α
  | [] => [a]
  | b :: l => if le a b then a :: b :: l else b :: insertSorted le a l

/-- Stable insertion sort by the Boolean preorder `le`; agrees with
Python's stable `sorted` for a total preorder. -/
def sortByb (le : α → α → Bool) : List α → List α
  | [] => []
  | a :: l => insertSorted le a (sortByb le l)

/-- The `key=(lap, track_distance), reverse=True` ordering: `a` sorts no
later than `b` iff `a`'s key is lexicographically at least `b`'s. -/
def posKeyGE (a b : CarState) : Bool :=
  (b.lap < a.lap) || (b.lap == a.lap && decide (b.track_distance ≤ a.track_distance))

/-- Index of the first occurrence of `x`. -/
def listIndexOf (l : List ℕ) (x : ℕ) : ℕ :=
  match l with
  | [] => 0
  | a :: t => if a = x then 0 else listIndexOf t x + 1

/-- The position assignment of `_update_positions`: every car — active or
not — is ranked by sorting on (lap, distance) descending and receives rank
`index + 1` in that order. -/
def assign_positions (cars : List CarState) : List CarState :=
  let ids := (sortByb posKeyGE cars).map (fun c => c.car_id)
  cars.map (fun c => { c with position := listIndexOf ids c.car_id + 1 })

/-- `_calculate_gaps`. -/
def sim_calculate_gaps (cfg : SimCfg) (s : SimCore) : SimCore :=
  let leaderState := findCar s.cars s.race_state.leader_id
  { s with
      cars := s.cars.map (fun c =>
        if ¬c.is_active then c
        else if c.car_id == s.race_state.leader_id then
          { c with gap_to_leader := 0, gap_to_car_ahead := 1/2, gap_to_car_behind := 1/2 }
        else
          let lapDiff : ℤ := (leaderState.lap : ℤ) - (c.lap : ℤ)
          let distDiff0 := leaderState.track_distance - c.track_distance
          let distDiff := if distDiff0 < 0 then distDiff0 + cfg.track_length else distDiff0
          let gap :=
            if 0 < c.speed then ((lapDiff : ℚ) * cfg.track_length + distDiff) / c.speed
            else 999
          { c with gap_to_leader := gap, gap_to_car_ahead := 1/2, gap_to_car_behind := 1/2 }) }

/-- `_update_positions` (which ends by calling `_calculate_gaps`): rank
assignment, the `positions` mapping rewritten for every car, the leader
taken from the head of the sorted order. -/
def sim_update_positions (cfg : SimCfg) (s : SimCore) : SimCore :=
  let sortedCars := sortByb posKeyGE s.cars
  let cars' := assign_positions s.cars
  let positions := sortedCars.enum.map (fun p => (p.2.car_id, p.1 + 1))
  let leader := match sortedCars with
    | [] => s.race_state.leader_id
    | c :: _ => c.car_id
  sim_calculate_gaps cfg
    { s with
        cars := cars'
        race_state := { s.race_state with positions := positions, leader_id := leader } }

/-- The position swap applied when an overtake succeeds. -/
def swapPositions (cars : List CarState) (attId defId : ℕ) : List CarState :=
  let pa := (findCar cars attId).position
  let pd := (findCar cars defId).position
  cars.map (fun c =>
    if c.car_id == attId then { c with position := pd }
    else if c.car_id == defId then { c with position := pa }
    else c)

/-- The `for i in range(len(sorted_cars) - 1)` loop of `_check_overtaking`,
over the (defender, attacker) id pairs of adjacent ranked cars.  The car
fields the loop reads (distance, speed) are untouched by the swaps, so
reading them from the live car list equals reading the sort-time
snapshot. -/
def overtakePairs (f : RngF) : List (ℕ × ℕ) → SimCore → SimCore
  | [], s => s
  | (defenderId, attackerId) :: rest, s =>
      let att := findCar s.cars attackerId
      let dfn := findCar s.cars defenderId
      let gap :=
        if 0 < att.speed then (dfn.track_distance - att.track_distance) / att.speed
        else 999
      if 0 < gap ∧ gap < 2 then
        let (om', result, g') := attempt_overtake f s.overtaking attackerId defenderId
          att.speed dfn.speed gap att.track_position_normalized
          (mgr_is_active s.attack_mode_manager attackerId)
          (mgr_is_active s.attack_mode_manager defenderId)
          s.race_state.race_time s.rng
        let cars' := if result.success then swapPositions s.cars attackerId defenderId
                     else s.cars
        overtakePairs f rest { s with cars := cars', overtaking := om', rng := g' }
      else overtakePairs f rest s

/-- `_check_overtaking`. -/
def sim_check_overtaking (f : RngF) (s : SimCore) : SimCore :=
  let sorted := sortByb posKeyGE (s.cars.filter (fun c => c.is_active))
  let pairs := (sorted.zip sorted.tail).map (fun p => (p.1.car_id, p.2.car_id))
  overtakePairs f pairs s

/-- `_update_attack_modes`. -/
def sim_update_attack_modes (s : SimCore) : SimCore :=
  { s with
      attack_mode_manager := mgr_update_all s.attack_mode_manager s.race_state.race_time }

/-- The body of the `_check_lap_completion` loop: wrap detection for one
car and the running maximum lap. -/
def lapBody (cfg : SimCfg) (acc : List CarState × ℕ) (c : CarState) :
    List CarState × ℕ :=
  if ¬c.is_active then (acc.1 ++ [c], acc.2)
  else if c.track_distance < cfg.time_step * c.speed then
    let c' := { c with lap := c.lap + 1 }
    (acc.1 ++ [c'], if acc.2 < c'.lap then c'.lap else acc.2)
  else (acc.1 ++ [c], acc.2)

/-- `_check_lap_completion`: per-car wrap detection and the running maximum
lap, updated sequentially in car order. -/
def sim_check_lap_completion (cfg : SimCfg) (s : SimCore) : SimCore :=
  let step := s.cars.foldl (lapBody cfg) ([], s.race_state.current_lap)
  { s with
      cars := step.1
      race_state := { s.race_state with current_lap := step.2 } }

/-- `defaultdict`-style append used by `_store_history`. -/
def appendPosHistory (h : List (ℕ × List (ℚ × ℕ))) (carId : ℕ) (entry : ℚ × ℕ) :
    List (ℕ × List (ℚ × ℕ)) :=
  if h.any (fun p => p.1 == carId) then
    h.map (fun p => if p.1 == carId then (p.1, p.2 ++ [entry]) else p)
  else h ++ [(carId, [entry])]

/-- `_store_history`: snapshot of the race state (weather flag read from
the event engine) and one `(time, position)` sample per car. -/
def sim_store_history (s : SimCore) : SimCore :=
  let snapshot : RaceState :=
    { race_time := s.race_state.race_time
      current_lap := s.race_state.current_lap
      leader_id := s.race_state.leader_id
      positions := s.race_state.positions
      safety_car_active := s.race_state.safety_car_active
      weather_dry := s.race_events.weather_dry
      mu_weather := s.race_state.mu_weather }
  { s with
      race_history := s.race_history ++ [snapshot]
      position_history := s.cars.foldl
        (fun h c => appendPosHistory h c.car_id (s.race_state.race_time, c.position))
        s.position_history }

/-- One iteration of the `while not race_finished` body, wall-clock
reporting aside: clock advance, events, cars, positions, overtaking, attack
modes, lap completion, and the every-5-seconds history snapshot. -/
def race_step_core (f : RngF) (cfg : SimCfg) (s : SimCore) : SimCore :=
  let s0 := { s with
    race_state := { s.race_state with race_time := s.race_state.race_time + cfg.time_step } }
  let s1 := sim_update_race_events f s0
  let s2 := sim_update_cars cfg s1
  let s3 := sim_update_positions cfg s2
  let s4 := sim_check_overtaking f s3
  let s5 := sim_update_attack_modes s4
  let s6 := sim_check_lap_completion cfg s5
  if pyint s6.race_state.race_time % 5 = 0 then sim_store_history s6 else s6

/-- One iteration of the loop including the every-60-seconds progress
report, the only consumer of `time.perf_counter` readings. -/
def race_step (f : RngF) (cfg : SimCfg) (wall : WallClock) (s : SimState) : SimState :=
  let c := race_step_core f cfg s.core
  if pyint c.race_state.race_time % 60 = 0 then
    { core := c
      wall_idx := s.wall_idx + 1
      progress_log := s.progress_log ++
        [(c.race_state.race_time, wall s.wall_idx, c.race_state.leader_id)] }
  else { core := c, wall_idx := s.wall_idx, progress_log := s.progress_log }

/-- Number of body executions of the `while` loop: the clock is advanced at
the top of the body, the first time it reaches `race_duration` sets
`leader_finished`, the next iteration sets `race_finished` and still runs
its body.  Defined for a positive time step (the source loops forever
otherwise). -/
def num_steps (cfg : SimCfg) : ℕ :=
  max 1 (Int.toNat ⌈(cfg.race_duration_minutes * 60) / cfg.time_step⌉) + 1

/-- Simulator state at the top of the race loop: `wall_idx = 1` because the
loop's `start_time = time.perf_counter()` consumed reading 0. -/
def initSimState (f : RngF) (cfg : SimCfg) : SimState :=
  { core := initSimCore f cfg, wall_idx := 1, progress_log := [] }

/-- `run_race`. -/
def run_race (f : RngF) (cfg : SimCfg) (wall : WallClock) : SimState :=
  (race_step f cfg wall)^[num_steps cfg] (initSimState f cfg)

/-- `final_positions` of `_compile_results`: cars sorted by final position. -/
def final_positions (s : SimState) : List (ℕ × ℕ) :=
  (sortByb (fun a b => decide (a.position ≤ b.position)) s.core.cars).map
    (fun c => (c.car_id, c.position))

/-- `laps_completed` of `_compile_results`. -/
def laps_completed (s : SimState) : List (ℕ × ℕ) :=
  (sortByb (fun a b => decide (a.position ≤ b.position)) s.core.cars).map
    (fun c => (c.car_id, c.lap))

/-- `event_log` of `_compile_results`. -/
def result_event_log (s : SimState) : List RaceEvent :=
  s.core.race_events.event_log


/-- Concrete one-car configuration used to exercise an out-of-energy
retirement step. -/
def retireCfg : SimCfg :=
  { num_cars := 1, track_length := 100, race_duration_minutes := 1,
    time_step := 1/2, random_seed := 0, m_base := 880, eta_base := 1 }

/-- A live car with 100 J left: one step's consumption exceeds it. -/
def retireCar : CarState :=
  { car_id := 0, position := 1, lap := 0, track_distance := 0,
    track_position_normalized := 0, speed := 0, energy_remaining := 100,
    race_time := 0, gap_to_leader := 0, gap_to_car_ahead := 0,
    gap_to_car_behind := 0, is_active := true, m := 880, eta_e_motor := 1 }

/-- The car's attack-mode controller, idle. -/
def retireMode : AttackMode :=
  { car_id := 0, activation_zone_start := 20, activation_zone_end := 25,
    base_power_kw := 200, attack_mode_power_kw := 250, max_activations := 2,
    activation_duration := 240, activation_time_loss := 3/4,
    state := AttackModeState.available, activations_remaining := 2,
    current_activation_start_time := none, current_activation_lap := none,
    activation_history := [] }

/-- Mid-race simulator state (lap-event check suppressed because the lap
counter has not advanced) in which the only car is about to run out of
energy. -/
def retireCore : SimCore :=
  { cars := [retireCar]
    race_events := mkRaceEvents 1 100
    overtaking := mkOvertakingModel 100
    attack_mode_manager :=
      { num_cars := 1, track_length := 100, activation_zone_start := 20,
        activation_zone_end := 25, attack_modes := [retireMode] }
    race_state :=
      { race_time := 0, current_lap := 0, leader_id := 0, positions := []
        safety_car_active := false, weather_dry := true, mu_weather := 1 }
    last_lap_checked := some 0
    race_history := []
    position_history := []
    rng := ⟨0, 0⟩ }


/-- Every attack-mode controller of the simulator is still in its initial
AVAILABLE state with an empty activation history and the 200 kW base
power. -/
def attackModesIdle (s : SimCore) : Prop :=
  ∀ am ∈ s.attack_mode_manager.attack_modes,
    am.state = AttackModeState.available ∧ am.activation_history = []
      ∧ am.base_power_kw = 200

/-! ## Spec-side definitions (for refinement comparisons) -/

/-- The success-probability step function exactly as the spec words it:
boost-adjusted differential, 0 below 5, 0.20 on `[5,10)`, 0.50 on `[10,15)`,
0.80 on `[15,∞)`. -/
def spec_success_probability (d : ℚ) (amA amD : Bool) : ℚ :=
  let adj := d + (if amA then 8 else 0) - (if amD then 8 else 0)
  if adj < 5 then 0
  else if adj < 10 then 1/5
  else if adj < 15 then 1/2
  else 4/5

/-! ## Theorems -/

/-- Evaluation of the probability-table lookup, threshold included, as a
single nested-interval step function. -/
theorem step_function_eval (x : ℚ) :
    (if x < 5 then (0:ℚ)
     else probLookup [(5, some 10, 1/5), (10, some 15, 1/2), (15, none, 4/5)] x)
    = if x < 5 then 0 else if x < 10 then 1/5 else if x < 15 then 1/2 else 4/5 := by
  rcases lt_or_le x 5 with h5 | h5
  · simp [h5]
  · rcases lt_or_le x 10 with h10 | h10
    · simp [probLookup, not_lt.mpr h5, h5, h10]
    · rcases lt_or_le x 15 with h15 | h15
      · simp [probLookup, not_lt.mpr h5, not_lt.mpr h10, h10, h15]
      · simp [probLookup, not_lt.mpr h5, not_lt.mpr h10, not_lt.mpr h15, h15]

/-- The model's success probability agrees with the spec's step function for
every differential and every pair of boost flags, whatever the recorded
history. -/
theorem success_probability_refines_spec (L : ℚ) (h : List OvertakingAttempt)
    (d : ℚ) (a b : Bool) :
    get_overtaking_success_probability
      { mkOvertakingModel L with overtaking_history := h } d a b
      = spec_success_probability d a b := by
  cases a <;> cases b <;>
    simp only [get_overtaking_success_probability, mkOvertakingModel,
      spec_success_probability, if_true, if_false, Bool.false_eq_true,
      add_zero, sub_zero, zero_add] <;>
    exact step_function_eval _

/-- C5: the overtaking success probability is the step function of the
boost-adjusted differential given in the spec (0 below 5 km/h, 0.20 on
`[5,10)`, 0.50 on `[10,15)`, 0.80 on `[15,∞)`; the 0.95 fallback for
differentials beyond the table is unreachable because the last table row
extends to infinity), and an attempt whose boost-adjusted differential is
below the 5 km/h threshold fails with zero time gain. -/
theorem overtake_probability_step_function (L : ℚ) (hist : List OvertakingAttempt)
    (d : ℚ) (aA aD : Bool) (f : RngF) (g : Rng) (aId dId : ℕ) (as ds gap tp ts : ℚ)
    (hdraw : 0 ≤ f g.seed g.idx)
    (hadj : as * (18/5) - ds * (18/5) +
      (if aA then (8:ℚ) else 0) - (if aD then (8:ℚ) else 0) < 5) :
    get_overtaking_success_probability
        { mkOvertakingModel L with overtaking_history := hist } d aA aD
      = spec_success_probability d aA aD
    ∧ (attempt_overtake f { mkOvertakingModel L with overtaking_history := hist }
        aId dId as ds gap tp aA aD ts g).2.1.success = false
    ∧ (attempt_overtake f { mkOvertakingModel L with overtaking_history := hist }
        aId dId as ds gap tp aA aD ts g).2.1.time_gain = 0 := by
  refine ⟨success_probability_refines_spec L hist d aA aD, ?_⟩
  have hprob : get_overtaking_success_probability
      { mkOvertakingModel L with overtaking_history := hist }
      (as * (18/5) - ds * (18/5)) aA aD = 0 := by
    rw [success_probability_refines_spec]
    simp only [spec_success_probability]
    rw [if_pos hadj]
  by_cases hraw : as * (18/5) - ds * (18/5) < 5
  · constructor <;> simp [attempt_overtake, mkOvertakingModel, hraw]
  · have hr : ¬ (f g.seed g.idx < 0) := not_lt.2 hdraw
    simp [mkOvertakingModel] at hprob
    constructor <;>
      simp [attempt_overtake, mkOvertakingModel, npRandom, hraw, hprob, hr]

/-- Witness for C5 at a concrete below-threshold attempt (equal speeds, no
boosts, draw 1/2). -/
theorem overtake_probability_step_function_witness :
    ((0:ℚ) ≤ (fun _ _ => (1:ℚ)/2 : RngF) (0:ℤ) (0:ℕ)
      ∧ (50:ℚ) * (18/5) - 50 * (18/5) +
          (if false then (8:ℚ) else 0) - (if false then (8:ℚ) else 0) < 5)
    ∧ (get_overtaking_success_probability
          { mkOvertakingModel 2500 with overtaking_history := [] } 7 false false
        = spec_success_probability 7 false false
      ∧ (attempt_overtake (fun _ _ => (1:ℚ)/2) { mkOvertakingModel 2500 with overtaking_history := [] }
          2 1 50 50 (8/10) (1/2) false false 0 ⟨0, 0⟩).2.1.success = false
      ∧ (attempt_overtake (fun _ _ => (1:ℚ)/2) { mkOvertakingModel 2500 with overtaking_history := [] }
          2 1 50 50 (8/10) (1/2) false false 0 ⟨0, 0⟩).2.1.time_gain = 0) :=
  ⟨⟨by norm_num, by norm_num⟩,
   overtake_probability_step_function 2500 [] 7 false false (fun _ _ => (1:ℚ)/2)
     ⟨0, 0⟩ 2 1 50 50 (8/10) (1/2) 0 (by norm_num) (by norm_num)⟩

/-- C4 (amended): an attempt whose raw differential reaches the minimum
threshold appends exactly one record; a below-threshold attempt returns
failure without recording; the history is append-only (the old log is
always a prefix of the new one). -/
theorem attempt_overtake_history (f : RngF) (om : OvertakingModel) (aId dId : ℕ)
    (as ds gap tp ts : ℚ) (aA aD : Bool) (g : Rng) :
    (as * (18/5) - ds * (18/5) < om.min_speed_diff →
      (attempt_overtake f om aId dId as ds gap tp aA aD ts g).1.overtaking_history
        = om.overtaking_history)
    ∧ (om.min_speed_diff ≤ as * (18/5) - ds * (18/5) →
      (attempt_overtake f om aId dId as ds gap tp aA aD ts g).1.overtaking_history.length
        = om.overtaking_history.length + 1)
    ∧ om.overtaking_history <+:
        (attempt_overtake f om aId dId as ds gap tp aA aD ts g).1.overtaking_history := by
  by_cases hraw : as * (18/5) - ds * (18/5) < om.min_speed_diff
  · refine ⟨fun _ => ?_, fun h => absurd h (not_le.2 hraw), ?_⟩ <;>
      simp [attempt_overtake, hraw]
  · refine ⟨fun h => absurd h hraw, fun _ => ?_, ?_⟩ <;>
      simp [attempt_overtake, hraw]

/-- Witness for C4 at a concrete above-threshold attempt. -/
theorem attempt_overtake_history_witness :
    (mkOvertakingModel 2500).min_speed_diff ≤ (60:ℚ) * (18/5) - 50 * (18/5)
    ∧ (attempt_overtake (fun _ _ => (1:ℚ)/2) (mkOvertakingModel 2500) 2 1 60 50 (8/10)
        (1/2) false false 0 ⟨0, 0⟩).1.overtaking_history.length
      = (mkOvertakingModel 2500).overtaking_history.length + 1 :=
  ⟨by norm_num [mkOvertakingModel],
   (attempt_overtake_history (fun _ _ => (1:ℚ)/2) (mkOvertakingModel 2500) 2 1 60 50
      (8/10) (1/2) 0 false false ⟨0, 0⟩).2.1
     (by norm_num [mkOvertakingModel])⟩

/-- C4 counterexample to the claim as stated: a below-threshold attempt
(equal speeds) appends nothing, so not every call appends exactly one
record. -/
theorem attempt_overtake_no_record_below_threshold :
    (attempt_overtake (fun _ _ => 1/2) (mkOvertakingModel 2500) 2 1 50 50 (8/10) (1/2)
      false false 0 ⟨0, 0⟩).1.overtaking_history = [] := by
  norm_num [attempt_overtake, mkOvertakingModel]

/-- C6: at a 12 km/h-equivalent advantage (attacker 160/3 m/s, defender
50 m/s), gap 0.8 s, no boosts, the [10,15) bucket probability 0.50 is used
and a succeeding draw (0.3) yields a reported time gain of exactly 0, not a
strictly positive value: the pre-clamp gain `250/(v_att + diff/2) - 250/v_def`
is negative for every faster attacker, so the `max(0.0, ...)` clamp always
returns 0. -/
theorem overtake_time_gain_zero_on_success :
    (attempt_overtake (fun _ _ => 3/10) (mkOvertakingModel 2500) 2 1 (160/3) 50 (8/10)
      (1/2) false false 0 ⟨0, 0⟩).2.1.success = true
    ∧ (attempt_overtake (fun _ _ => 3/10) (mkOvertakingModel 2500) 2 1 (160/3) 50 (8/10)
      (1/2) false false 0 ⟨0, 0⟩).2.1.speed_differential_kmh = 12
    ∧ get_overtaking_success_probability (mkOvertakingModel 2500) 12 false false = 1/2
    ∧ (attempt_overtake (fun _ _ => 3/10) (mkOvertakingModel 2500) 2 1 (160/3) 50 (8/10)
      (1/2) false false 0 ⟨0, 0⟩).2.1.time_gain = 0 := by
  refine ⟨?_, ?_, ?_, ?_⟩ <;>
    norm_num [attempt_overtake, mkOvertakingModel,
      get_overtaking_success_probability, probLookup, npRandom]

/-- C3 (amended): in the AVAILABLE state, a position outside the zone
interval taken modulo `zone_length + 1000` (the modulus the code actually
uses) is refused with reason "Not in activation zone"; in any other state
`can_activate` also returns false, with a state-specific reason. -/
theorem can_activate_outside_zone (am : AttackMode) (lap : ℕ) (t pos : ℚ)
    (hs : am.state = AttackModeState.available)
    (hout : ¬(am.activation_zone_start ≤
        pymod pos (am.activation_zone_end - am.activation_zone_start + 1000) ∧
        pymod pos (am.activation_zone_end - am.activation_zone_start + 1000) ≤
        am.activation_zone_end)) :
    can_activate am lap t pos = (false, "Not in activation zone")
    ∧ ∀ (am' : AttackMode), am'.state ≠ AttackModeState.available →
        (can_activate am' lap t pos).1 = false := by
  constructor
  · simp [can_activate, hs, hout]
  · intro am' hne
    rcases ham : am'.state
    · exact absurd ham hne
    · simp [can_activate, ham]
    · simp [can_activate, ham]
    · simp [can_activate, ham]

/-- Witness for C3 on a freshly initialised controller (zone 500..600) at
position 100, outside the zone. -/
theorem can_activate_outside_zone_witness :
    ((mkAttackMode (fun _ _ => 1/2) 1 500 600 200 (some 42) ⟨0, 0⟩).1.state
        = AttackModeState.available
      ∧ ¬((mkAttackMode (fun _ _ => 1/2) 1 500 600 200 (some 42) ⟨0, 0⟩).1.activation_zone_start ≤
          pymod 100 ((mkAttackMode (fun _ _ => 1/2) 1 500 600 200 (some 42) ⟨0, 0⟩).1.activation_zone_end -
            (mkAttackMode (fun _ _ => 1/2) 1 500 600 200 (some 42) ⟨0, 0⟩).1.activation_zone_start + 1000) ∧
          pymod 100 ((mkAttackMode (fun _ _ => 1/2) 1 500 600 200 (some 42) ⟨0, 0⟩).1.activation_zone_end -
            (mkAttackMode (fun _ _ => 1/2) 1 500 600 200 (some 42) ⟨0, 0⟩).1.activation_zone_start + 1000) ≤
          (mkAttackMode (fun _ _ => 1/2) 1 500 600 200 (some 42) ⟨0, 0⟩).1.activation_zone_end))
    ∧ (can_activate (mkAttackMode (fun _ _ => 1/2) 1 500 600 200 (some 42) ⟨0, 0⟩).1 1 0 100
        = (false, "Not in activation zone")
      ∧ ∀ (am' : AttackMode), am'.state ≠ AttackModeState.available →
          (can_activate am' 1 0 100).1 = false) :=
  ⟨⟨by rfl, by norm_num [mkAttackMode, npUniform, npRandom, npSeed, pymod]⟩,
   can_activate_outside_zone _ 1 0 100 (by rfl)
     (by norm_num [mkAttackMode, npUniform, npRandom, npSeed, pymod])⟩

/-- C3 counterexample to the claim as stated: with zone 500..600 and track
length 2500, position 1600 is outside the zone modulo the track length
(1600 mod 2500 = 1600), yet `can_activate` accepts it, because the code
wraps positions modulo `zone_length + 1000 = 1100` and 1600 mod 1100 = 500
lies in the zone. -/
theorem can_activate_wrong_modulus :
    can_activate (mkAttackMode (fun _ _ => 1/2) 1 500 600 200 (some 42) ⟨0, 0⟩).1 1 0 1600
      = (true, "Can activate")
    ∧ pymod 1600 2500 = 1600
    ∧ ¬((500:ℚ) ≤ 1600 ∧ (1600:ℚ) ≤ 600) := by
  refine ⟨?_, by norm_num [pymod], by norm_num⟩
  norm_num [can_activate, mkAttackMode, npUniform, npRandom, npSeed, pymod]
  rfl

/-- C8 (amended): for an unknown car id, `can_activate` reports the
distinct failure "Invalid car ID", while `activate` returns a bare false,
the power query silently returns the 200 kW default, the
activations-remaining query silently returns 0, and `is_active` returns
false. -/
theorem manager_unknown_car_id (mgr : AttackModeManager) (c lap : ℕ) (t pos : ℚ)
    (h : findMode mgr c = none) :
    mgr_can_activate mgr c lap t pos = (false, "Invalid car ID")
    ∧ (mgr_activate mgr c lap t pos).2 = false
    ∧ mgr_get_power_kw mgr c = 200
    ∧ mgr_get_activations_remaining mgr c = 0
    ∧ mgr_is_active mgr c = false := by
  simp [mgr_can_activate, mgr_activate, mgr_get_power_kw,
    mgr_get_activations_remaining, mgr_is_active, h]

/-- Witness for C8: a one-car manager queried for car id 5. -/
theorem manager_unknown_car_id_witness :
    findMode (mkAttackModeManager (fun _ _ => 1/2) 1 2500 none none (some 0) ⟨0, 0⟩).1 5 = none
    ∧ (mgr_can_activate (mkAttackModeManager (fun _ _ => 1/2) 1 2500 none none (some 0) ⟨0, 0⟩).1
        5 1 0 100 = (false, "Invalid car ID")
      ∧ (mgr_activate (mkAttackModeManager (fun _ _ => 1/2) 1 2500 none none (some 0) ⟨0, 0⟩).1
        5 1 0 100).2 = false
      ∧ mgr_get_power_kw (mkAttackModeManager (fun _ _ => 1/2) 1 2500 none none (some 0) ⟨0, 0⟩).1 5 = 200
      ∧ mgr_get_activations_remaining
          (mkAttackModeManager (fun _ _ => 1/2) 1 2500 none none (some 0) ⟨0, 0⟩).1 5 = 0
      ∧ mgr_is_active (mkAttackModeManager (fun _ _ => 1/2) 1 2500 none none (some 0) ⟨0, 0⟩).1 5 = false) :=
  ⟨by rfl, manager_unknown_car_id _ 5 1 0 100 (by rfl)⟩

/-- C8 counterexample to the claim as stated: for the unknown car id 5 the
power query answers 200 kW — the very value a valid idle car reports — and
the activations-remaining query answers 0: silent defaults, not reported
failures. -/
theorem manager_unknown_car_id_silent_default :
    mgr_get_power_kw (mkAttackModeManager (fun _ _ => 1/2) 1 2500 none none (some 0) ⟨0, 0⟩).1 5 = 200
    ∧ mgr_get_power_kw (mkAttackModeManager (fun _ _ => 1/2) 1 2500 none none (some 0) ⟨0, 0⟩).1 0 = 200
    ∧ mgr_get_activations_remaining
        (mkAttackModeManager (fun _ _ => 1/2) 1 2500 none none (some 0) ⟨0, 0⟩).1 5 = 0 := by
  refine ⟨by rfl, ?_, by rfl⟩
  rfl

/-- `update_safety_car` in the active case, with the branch structure laid
out. -/
theorem update_safety_car_active (e : RaceEvents) (h2 : e.safety_car_active = true) :
    update_safety_car e =
      (if e.safety_car_laps_remaining - 1 ≤ 0 then
        (if e.safety_car_state = SafetyCarState.deployed then
          { e with safety_car_state := SafetyCarState.returning, safety_car_laps_remaining := 1 }
        else if e.safety_car_state = SafetyCarState.returning then
          { e with safety_car_active := false, safety_car_state := SafetyCarState.clear,
                   safety_car_laps_remaining := 0 }
        else { e with safety_car_laps_remaining := e.safety_car_laps_remaining - 1 })
      else { e with safety_car_laps_remaining := e.safety_car_laps_remaining - 1 }) := by
  simp [update_safety_car, h2]

/-- The safety-car speed-cap field is never rewritten by the update. -/
theorem update_safety_car_speed_const (e : RaceEvents) :
    (update_safety_car e).safety_car_speed = e.safety_car_speed := by
  by_cases h : e.safety_car_active = true
  · rw [update_safety_car_active e h]
    split_ifs <;> rfl
  · rw [update_safety_car, if_pos (by simp [h])]

theorem update_safety_car_iter_speed (e : RaceEvents) (k : ℕ) :
    (update_safety_car^[k] e).safety_car_speed = e.safety_car_speed := by
  induction k with
  | zero => rfl
  | succ k ih => rw [Function.iterate_succ_apply', update_safety_car_speed_const, ih]

/-- With no safety car out, the update is the identity. -/
theorem update_safety_car_inactive (e : RaceEvents) (h : e.safety_car_active = false) :
    update_safety_car e = e := by
  rw [update_safety_car, if_pos (by simp [h])]

theorem update_safety_car_iter_inactive (e : RaceEvents)
    (h : e.safety_car_active = false) (j : ℕ) : update_safety_car^[j] e = e := by
  induction j with
  | zero => rfl
  | succ j ih => rw [Function.iterate_succ_apply, update_safety_car_inactive e h, ih]

/-- While the countdown has not expired, each update decrements it and keeps
the DEPLOYED state and the active flag. -/
theorem sc_deployed_phase (d : RaceEvents) (n : ℤ)
    (hstate : d.safety_car_state = SafetyCarState.deployed)
    (hact : d.safety_car_active = true)
    (hrem : d.safety_car_laps_remaining = n) :
    ∀ k : ℕ, (k : ℤ) < n →
      (update_safety_car^[k] d).safety_car_state = SafetyCarState.deployed
      ∧ (update_safety_car^[k] d).safety_car_active = true
      ∧ (update_safety_car^[k] d).safety_car_laps_remaining = n - k := by
  intro k
  induction k with
  | zero =>
      intro _
      simpa using ⟨hstate, hact, hrem⟩
  | succ k ih =>
      intro hk
      have hk' : (k : ℤ) < n := by push_cast at hk ⊢; linarith
      obtain ⟨h1, h2, h3⟩ := ih hk'
      have hpos : ¬ ((update_safety_car^[k] d).safety_car_laps_remaining - 1 ≤ 0) := by
        rw [h3]
        push_cast at hk
        omega
      rw [Function.iterate_succ_apply', update_safety_car_active _ h2, if_neg hpos]
      refine ⟨h1, h2, ?_⟩
      rw [h3]
      push_cast
      ring

/-- C7: deployment from CLEAR draws a countdown in 3..8 and enters DEPLOYED
with the active flag set; the state stays DEPLOYED (active, speed capped at
80 km/h in m/s) through the first `n - 1` updates, the `n`-th update enters
RETURNING (still active and capped), the next update returns to CLEAR, and
from then on the state stays CLEAR with the flag down and an unbounded
(`none`) speed. -/
theorem safety_car_state_machine (f : RngF) (e : RaceEvents) (lap : ℕ) (t : ℚ) (g : Rng)
    (_hclear : e.safety_car_state = SafetyCarState.clear)
    (hspeed : e.safety_car_speed = 80 / (18/5))
    (hr0 : 0 ≤ f g.seed g.idx) (hr1 : f g.seed g.idx < 1) :
    let d := (deploy_safety_car f e lap t g).1
    let n := d.safety_car_laps_remaining
    (3 ≤ n ∧ n ≤ 8)
    ∧ (d.safety_car_state = SafetyCarState.deployed ∧ d.safety_car_active = true)
    ∧ (∀ k : ℕ, (k : ℤ) < n →
        (update_safety_car^[k] d).safety_car_state = SafetyCarState.deployed
        ∧ (update_safety_car^[k] d).safety_car_active = true
        ∧ get_safety_car_speed (update_safety_car^[k] d) = some (80 / (18/5)))
    ∧ ((update_safety_car^[n.toNat] d).safety_car_state = SafetyCarState.returning
        ∧ (update_safety_car^[n.toNat] d).safety_car_active = true
        ∧ get_safety_car_speed (update_safety_car^[n.toNat] d) = some (80 / (18/5)))
    ∧ (∀ k : ℕ, n.toNat + 1 ≤ k →
        (update_safety_car^[k] d).safety_car_state = SafetyCarState.clear
        ∧ (update_safety_car^[k] d).safety_car_active = false
        ∧ get_safety_car_speed (update_safety_car^[k] d) = none) := by
  intro d n
  have hdstate : d.safety_car_state = SafetyCarState.deployed := by
    simp [d, deploy_safety_car, npRandint, npRandom]
  have hdact : d.safety_car_active = true := by
    simp [d, deploy_safety_car, npRandint, npRandom]
  have hdspeed : d.safety_car_speed = 80 / (18/5) := by
    simp only [d, deploy_safety_car, npRandint, npRandom]
    exact hspeed
  have hlr : n = 3 + ⌊f g.seed g.idx * 6⌋ := by
    simp [n, d, deploy_safety_car, npRandint, npRandom]
    norm_num
  have hfl0 : (0:ℤ) ≤ ⌊f g.seed g.idx * 6⌋ :=
    Int.floor_nonneg.mpr (mul_nonneg hr0 (by norm_num))
  have hfl5 : ⌊f g.seed g.idx * 6⌋ < 6 := by
    apply Int.floor_lt.mpr
    push_cast
    nlinarith [hr1]
  have hn3 : 3 ≤ n := by omega
  have hn8 : n ≤ 8 := by omega
  have hnrem : d.safety_car_laps_remaining = n := rfl
  have phase := sc_deployed_phase d n hdstate hdact hnrem
  have hspeed_iter : ∀ k : ℕ, (update_safety_car^[k] d).safety_car_speed = 80 / (18/5) := by
    intro k
    rw [update_safety_car_iter_speed, hdspeed]
  obtain ⟨m, hm⟩ : ∃ m, n.toNat = m + 1 := ⟨n.toNat - 1, by omega⟩
  have hmlt : (m : ℤ) < n := by omega
  obtain ⟨p1, p2, p3⟩ := phase m hmlt
  have hrem1 : (update_safety_car^[m] d).safety_car_laps_remaining = 1 := by
    rw [p3]; omega
  have hret : update_safety_car^[n.toNat] d =
      { update_safety_car^[m] d with
          safety_car_state := SafetyCarState.returning
          safety_car_laps_remaining := 1 } := by
    rw [hm, Function.iterate_succ_apply', update_safety_car_active _ p2,
      if_pos (by rw [hrem1]; norm_num), if_pos p1]
  have hretact : (update_safety_car^[n.toNat] d).safety_car_active = true := by
    rw [hret]; exact p2
  have hclr : update_safety_car^[n.toNat + 1] d =
      { update_safety_car^[n.toNat] d with
          safety_car_active := false
          safety_car_state := SafetyCarState.clear
          safety_car_laps_remaining := 0 } := by
    rw [Function.iterate_succ_apply', update_safety_car_active _ hretact]
    rw [if_pos (by rw [hret]; norm_num)]
    rw [if_neg (by rw [hret]; simp), if_pos (by rw [hret])]
  refine ⟨⟨hn3, hn8⟩, ⟨hdstate, hdact⟩, ?_, ?_, ?_⟩
  · intro k hk
    obtain ⟨q1, q2, _⟩ := phase k hk
    refine ⟨q1, q2, ?_⟩
    rw [get_safety_car_speed, if_pos (by simp [q2]), hspeed_iter]
  · refine ⟨by rw [hret], hretact, ?_⟩
    rw [get_safety_car_speed, if_pos (by simp [hretact]), hspeed_iter]
  · intro k hk
    obtain ⟨j, hj⟩ : ∃ j, k = j + (n.toNat + 1) := ⟨k - (n.toNat + 1), by omega⟩
    have hcact : (update_safety_car^[n.toNat + 1] d).safety_car_active = false := by
      rw [hclr]
    have hiter : update_safety_car^[k] d = update_safety_car^[n.toNat + 1] d := by
      rw [hj, Function.iterate_add_apply,
        update_safety_car_iter_inactive _ hcact]
    have hcstate : (update_safety_car^[n.toNat + 1] d).safety_car_state
        = SafetyCarState.clear := by
      rw [hclr]
    have hcspeed : get_safety_car_speed (update_safety_car^[n.toNat + 1] d) = none := by
      rw [get_safety_car_speed, if_neg (by rw [hcact]; simp)]
    rw [hiter]
    exact ⟨hcstate, hcact, hcspeed⟩

/-- Witness for C7: deployment on a freshly initialised event engine with a
draw of 1/2 (duration 6 laps). -/
theorem safety_car_state_machine_witness :
    ((mkRaceEvents 20 2500).safety_car_state = SafetyCarState.clear
      ∧ (mkRaceEvents 20 2500).safety_car_speed = 80 / (18/5)
      ∧ (0:ℚ) ≤ (fun _ _ => (1:ℚ)/2 : RngF) (Rng.mk 0 0).seed (Rng.mk 0 0).idx
      ∧ (fun _ _ => (1:ℚ)/2 : RngF) (Rng.mk 0 0).seed (Rng.mk 0 0).idx < 1)
    ∧ (let d := (deploy_safety_car (fun _ _ => (1:ℚ)/2) (mkRaceEvents 20 2500) 3 100 ⟨0, 0⟩).1
       let n := d.safety_car_laps_remaining
       (3 ≤ n ∧ n ≤ 8)
       ∧ (d.safety_car_state = SafetyCarState.deployed ∧ d.safety_car_active = true)
       ∧ (∀ k : ℕ, (k : ℤ) < n →
           (update_safety_car^[k] d).safety_car_state = SafetyCarState.deployed
           ∧ (update_safety_car^[k] d).safety_car_active = true
           ∧ get_safety_car_speed (update_safety_car^[k] d) = some (80 / (18/5)))
       ∧ ((update_safety_car^[n.toNat] d).safety_car_state = SafetyCarState.returning
           ∧ (update_safety_car^[n.toNat] d).safety_car_active = true
           ∧ get_safety_car_speed (update_safety_car^[n.toNat] d) = some (80 / (18/5)))
       ∧ (∀ k : ℕ, n.toNat + 1 ≤ k →
           (update_safety_car^[k] d).safety_car_state = SafetyCarState.clear
           ∧ (update_safety_car^[k] d).safety_car_active = false
           ∧ get_safety_car_speed (update_safety_car^[k] d) = none)) :=
  ⟨⟨rfl, rfl, by norm_num, by norm_num⟩,
   safety_car_state_machine (fun _ _ => (1:ℚ)/2) (mkRaceEvents 20 2500) 3 100 ⟨0, 0⟩
     rfl rfl (by norm_num) (by norm_num)⟩

/-- Stable insertion produces a permutation of consing. -/
theorem insertSorted_perm (le : α → α → Bool) (a : α) (l : List α) :
    List.Perm (insertSorted le a l) (a :: l) := by
  induction l with
  | nil => exact List.Perm.refl _
  | cons b t ih =>
      unfold insertSorted
      by_cases h : le a b
      · rw [if_pos h]
      · rw [if_neg h]
        exact (ih.cons b).trans (List.Perm.swap a b t)

/-- The insertion sort permutes its input. -/
theorem sortByb_perm (le : α → α → Bool) (l : List α) :
    List.Perm (sortByb le l) l := by
  induction l with
  | nil => exact List.Perm.refl _
  | cons a t ih => exact (insertSorted_perm le a (sortByb le t)).trans (ih.cons a)

/-- Mapping each element of a duplicate-free list to its own first index
enumerates `0 .. length - 1`. -/
theorem listIndexOf_map_self (l : List ℕ) (h : l.Nodup) :
    l.map (fun x => listIndexOf l x) = List.range l.length := by
  induction l with
  | nil => rfl
  | cons a t ih =>
      rw [List.map_cons]
      have h0 : listIndexOf (a :: t) a = 0 := by simp [listIndexOf]
      have hne : ∀ x ∈ t, a ≠ x := by
        intro x hx he
        exact (List.nodup_cons.1 h).1 (he ▸ hx)
      have hmap : t.map (fun x => listIndexOf (a :: t) x)
          = t.map (fun x => listIndexOf t x + 1) := by
        apply List.map_congr_left
        intro x hx
        simp [listIndexOf, hne x hx]
      rw [h0, hmap]
      have hm2 : t.map (fun x => listIndexOf t x + 1)
          = (t.map (fun x => listIndexOf t x)).map (fun y => y + 1) := by
        rw [List.map_map]
        rfl
      rw [hm2, ih (List.nodup_cons.1 h).2]
      simp [List.range_succ_eq_map, Nat.succ_eq_add_one]

/-- C1 (amended): after `_update_positions`, the ranks written over ALL
cars (active and retired alike) are exactly `1 .. N`, each exactly once, so
active cars always hold pairwise-distinct ranks; but the active cars' rank
set is `{1..k}` only when no retired car outranks an active one. -/
theorem assign_positions_ranks (cars : List CarState)
    (h : (cars.map (fun c => c.car_id)).Nodup) :
    List.Perm ((assign_positions cars).map (fun c => c.position))
      (List.range' 1 cars.length)
    ∧ ((assign_positions cars).map (fun c => c.position)).Nodup := by
  have hperm : List.Perm ((sortByb posKeyGE cars).map (fun c => c.car_id))
      (cars.map (fun c => c.car_id)) := (sortByb_perm posKeyGE cars).map _
  have hnd : ((sortByb posKeyGE cars).map (fun c => c.car_id)).Nodup :=
    (hperm.nodup_iff).2 h
  have hcalc : (assign_positions cars).map (fun c => c.position)
      = (cars.map (fun c => c.car_id)).map
          (fun i => listIndexOf ((sortByb posKeyGE cars).map (fun c => c.car_id)) i + 1) := by
    simp [assign_positions, List.map_map]
  have hlen : ((sortByb posKeyGE cars).map (fun c => c.car_id)).length = cars.length := by
    rw [List.length_map, (sortByb_perm posKeyGE cars).length_eq]
  have hperm2 : List.Perm
      ((cars.map (fun c => c.car_id)).map
        (fun i => listIndexOf ((sortByb posKeyGE cars).map (fun c => c.car_id)) i + 1))
      (((sortByb posKeyGE cars).map (fun c => c.car_id)).map
        (fun i => listIndexOf ((sortByb posKeyGE cars).map (fun c => c.car_id)) i + 1)) :=
    (hperm.symm).map _
  have heval : (((sortByb posKeyGE cars).map (fun c => c.car_id)).map
      (fun i => listIndexOf ((sortByb posKeyGE cars).map (fun c => c.car_id)) i + 1))
      = List.range' 1 cars.length := by
    have hm2 : (((sortByb posKeyGE cars).map (fun c => c.car_id)).map
        (fun i => listIndexOf ((sortByb posKeyGE cars).map (fun c => c.car_id)) i + 1))
        = (((sortByb posKeyGE cars).map (fun c => c.car_id)).map
            (fun i => listIndexOf ((sortByb posKeyGE cars).map (fun c => c.car_id)) i)).map
            (fun y => y + 1) := by
      simp [List.map_map]
    rw [hm2, listIndexOf_map_self _ hnd, hlen, List.range'_eq_map_range]
    apply List.map_congr_left
    intro x _
    omega
  have hfinal : List.Perm ((assign_positions cars).map (fun c => c.position))
      (List.range' 1 cars.length) := by
    rw [hcalc]
    exact hperm2.trans (heval ▸ List.Perm.refl _)
  refine ⟨hfinal, (hfinal.nodup_iff).2 ?_⟩
  exact List.nodup_range' _ _


/-- C1 counterexample to the claim as stated: a retired car that stopped on
lap 1 still outranks the only active car (which is on lap 0), because the
sort ranks every car in `car_states`, not only active ones: the rank
multiset over all cars is `[1, 2]`, and the single active car holds rank 2,
not the set `{1}` the claim requires for k = 1 active cars. -/
theorem update_positions_retired_car_outranks :
    (assign_positions
        [{ car_id := 0, position := 1, lap := 1, track_distance := 0,
           track_position_normalized := 0, speed := 0, energy_remaining := 0,
           race_time := 0, gap_to_leader := 0, gap_to_car_ahead := 0,
           gap_to_car_behind := 0, is_active := false, m := 880, eta_e_motor := 1 },
         { car_id := 1, position := 2, lap := 0, track_distance := 0,
           track_position_normalized := 0, speed := 50, energy_remaining := 1000000,
           race_time := 0, gap_to_leader := 0, gap_to_car_ahead := 0,
           gap_to_car_behind := 0, is_active := true, m := 880, eta_e_motor := 1 }]).map
      (fun c => c.position) = [1, 2]
    ∧ ((assign_positions
        [{ car_id := 0, position := 1, lap := 1, track_distance := 0,
           track_position_normalized := 0, speed := 0, energy_remaining := 0,
           race_time := 0, gap_to_leader := 0, gap_to_car_ahead := 0,
           gap_to_car_behind := 0, is_active := false, m := 880, eta_e_motor := 1 },
         { car_id := 1, position := 2, lap := 0, track_distance := 0,
           track_position_normalized := 0, speed := 50, energy_remaining := 1000000,
           race_time := 0, gap_to_leader := 0, gap_to_car_ahead := 0,
           gap_to_car_behind := 0, is_active := true, m := 880, eta_e_motor := 1 }]).filter
      (fun c => c.is_active)).map (fun c => c.position) = [2] := by
  constructor <;> rfl

/-- Witness for C1 on the same two-car grid. -/
theorem assign_positions_ranks_witness :
    (([{ car_id := 0, position := 1, lap := 1, track_distance := 0,
         track_position_normalized := 0, speed := 0, energy_remaining := 0,
         race_time := 0, gap_to_leader := 0, gap_to_car_ahead := 0,
         gap_to_car_behind := 0, is_active := false, m := 880, eta_e_motor := 1 },
       { car_id := 1, position := 2, lap := 0, track_distance := 0,
         track_position_normalized := 0, speed := 50, energy_remaining := 1000000,
         race_time := 0, gap_to_leader := 0, gap_to_car_ahead := 0,
         gap_to_car_behind := 0, is_active := true, m := 880, eta_e_motor := 1 }] :
        List CarState).map (fun c => c.car_id)).Nodup
    ∧ (List.Perm ((assign_positions
        [{ car_id := 0, position := 1, lap := 1, track_distance := 0,
           track_position_normalized := 0, speed := 0, energy_remaining := 0,
           race_time := 0, gap_to_leader := 0, gap_to_car_ahead := 0,
           gap_to_car_behind := 0, is_active := false, m := 880, eta_e_motor := 1 },
         { car_id := 1, position := 2, lap := 0, track_distance := 0,
           track_position_normalized := 0, speed := 50, energy_remaining := 1000000,
           race_time := 0, gap_to_leader := 0, gap_to_car_ahead := 0,
           gap_to_car_behind := 0, is_active := true, m := 880, eta_e_motor := 1 }]).map
          (fun c => c.position))
        (List.range' 1 2)
      ∧ ((assign_positions
        [{ car_id := 0, position := 1, lap := 1, track_distance := 0,
           track_position_normalized := 0, speed := 0, energy_remaining := 0,
           race_time := 0, gap_to_leader := 0, gap_to_car_ahead := 0,
           gap_to_car_behind := 0, is_active := false, m := 880, eta_e_motor := 1 },
         { car_id := 1, position := 2, lap := 0, track_distance := 0,
           track_position_normalized := 0, speed := 50, energy_remaining := 1000000,
           race_time := 0, gap_to_leader := 0, gap_to_car_ahead := 0,
           gap_to_car_behind := 0, is_active := true, m := 880, eta_e_motor := 1 }]).map
          (fun c => c.position)).Nodup) :=
  ⟨by simp, assign_positions_ranks _ (by simp)⟩

/-- `lapBody` on a retired car: passes it through unchanged. -/
theorem lapBody_inactive (cfg : SimCfg) (acc : List CarState × ℕ) (a : CarState)
    (ha : ¬ a.is_active = true) : lapBody cfg acc a = (acc.1 ++ [a], acc.2) := by
  simp [lapBody, ha]

/-- `lapBody` on an active car that just crossed the line. -/
theorem lapBody_wrap (cfg : SimCfg) (acc : List CarState × ℕ) (a : CarState)
    (ha : a.is_active = true) (hw : a.track_distance < cfg.time_step * a.speed) :
    lapBody cfg acc a = (acc.1 ++ [{ a with lap := a.lap + 1 }],
      if acc.2 < a.lap + 1 then a.lap + 1 else acc.2) := by
  simp [lapBody, ha, hw]

/-- `lapBody` on an active car away from the line. -/
theorem lapBody_nowrap (cfg : SimCfg) (acc : List CarState × ℕ) (a : CarState)
    (ha : a.is_active = true) (hw : ¬ a.track_distance < cfg.time_step * a.speed) :
    lapBody cfg acc a = (acc.1 ++ [a], acc.2) := by
  simp [lapBody, ha, hw]

/-- `_check_lap_completion` acts per car: retired cars are untouched, active
cars get a lap increment exactly on a line crossing. -/
theorem check_lap_completion_cars (cfg : SimCfg) (s : SimCore) :
    (sim_check_lap_completion cfg s).cars
      = s.cars.map (fun d =>
          if d.is_active = true ∧ d.track_distance < cfg.time_step * d.speed
          then { d with lap := d.lap + 1 } else d) := by
  have key : ∀ (cars : List CarState) (acc : List CarState) (cl : ℕ),
      (cars.foldl (lapBody cfg) (acc, cl)).1
      = acc ++ cars.map (fun d =>
          if d.is_active = true ∧ d.track_distance < cfg.time_step * d.speed
          then { d with lap := d.lap + 1 } else d) := by
    intro cars
    induction cars with
    | nil => intro acc cl; simp
    | cons a t ih =>
        intro acc cl
        by_cases ha : a.is_active = true
        · by_cases hw : a.track_distance < cfg.time_step * a.speed
          · rw [List.foldl_cons, lapBody_wrap cfg _ _ ha hw, ih]
            simp [ha, hw]
          · rw [List.foldl_cons, lapBody_nowrap cfg _ _ ha hw, ih]
            simp [ha, hw]
        · rw [List.foldl_cons, lapBody_inactive cfg _ _ ha, ih]
          simp [ha]
  simp only [sim_check_lap_completion, key s.cars [] s.race_state.current_lap,
    List.nil_append]

/-- C2 (amended): when an active car's energy integration reaches zero or
below, the same `_update_cars` visit marks it inactive and clamps the energy
to exactly 0 (no retirement reason is recorded anywhere — see the
counterexample theorem); an inactive car is entirely skipped by later car
updates, so its speed, distance, lap and zero energy are frozen; the energy
of every car remains nonnegative across updates; and the lap-completion pass
leaves retired cars untouched. -/
theorem update_car_out_of_energy (sa : Bool) (sc : Option ℚ) (p dt L : ℚ) (c : CarState)
    (hact : c.is_active = true)
    (hdep : c.energy_remaining - p * 1000 * dt / (9/10) ≤ 0) :
    ((update_car sa sc p dt L c).is_active = false
      ∧ (update_car sa sc p dt L c).energy_remaining = 0)
    ∧ (∀ (sa2 : Bool) (sc2 : Option ℚ) (p2 dt2 L2 : ℚ) (d : CarState),
        d.is_active = false → update_car sa2 sc2 p2 dt2 L2 d = d)
    ∧ (∀ (sa2 : Bool) (sc2 : Option ℚ) (p2 dt2 L2 : ℚ) (d : CarState),
        0 ≤ d.energy_remaining →
        0 ≤ (update_car sa2 sc2 p2 dt2 L2 d).energy_remaining)
    ∧ (∀ (cfg : SimCfg) (s : SimCore),
        (sim_check_lap_completion cfg s).cars
          = s.cars.map (fun d =>
              if d.is_active = true ∧ d.track_distance < cfg.time_step * d.speed
              then { d with lap := d.lap + 1 } else d)) := by
  refine ⟨⟨?_, ?_⟩, ?_, ?_, fun cfg s => check_lap_completion_cars cfg s⟩
  · simp [update_car, hact, hdep]
  · simp [update_car, hact, hdep]
  · intro sa2 sc2 p2 dt2 L2 d hd
    simp [update_car, hd]
  · intro sa2 sc2 p2 dt2 L2 d hd
    by_cases hda : d.is_active = true
    · simp only [update_car, hda, Bool.not_true]
      split_ifs <;> simp_all <;> linarith
    · simp [update_car, hda]
      exact hd

/-- Witness for C2: the 100 J car under 200 kW for half a second. -/
theorem update_car_out_of_energy_witness :
    (retireCar.is_active = true
      ∧ retireCar.energy_remaining - 200 * 1000 * (1/2) / (9/10) ≤ 0)
    ∧ (((update_car false none 200 (1/2) 100 retireCar).is_active = false
      ∧ (update_car false none 200 (1/2) 100 retireCar).energy_remaining = 0)
    ∧ (∀ (sa2 : Bool) (sc2 : Option ℚ) (p2 dt2 L2 : ℚ) (d : CarState),
        d.is_active = false → update_car sa2 sc2 p2 dt2 L2 d = d)
    ∧ (∀ (sa2 : Bool) (sc2 : Option ℚ) (p2 dt2 L2 : ℚ) (d : CarState),
        0 ≤ d.energy_remaining →
        0 ≤ (update_car sa2 sc2 p2 dt2 L2 d).energy_remaining)
    ∧ (∀ (cfg : SimCfg) (s : SimCore),
        (sim_check_lap_completion cfg s).cars
          = s.cars.map (fun d =>
              if d.is_active = true ∧ d.track_distance < cfg.time_step * d.speed
              then { d with lap := d.lap + 1 } else d))) :=
  ⟨⟨rfl, by norm_num [retireCar]⟩,
   update_car_out_of_energy false none 200 (1/2) 100 retireCar rfl
     (by norm_num [retireCar])⟩

/-- C2 counterexample to the claim as stated: across a full orchestrator
step in which the only car runs out of energy and retires, the event log —
the sole reason-bearing record in the system — stays empty, and no state
carries a retirement reason: the car is silently deactivated, so no
"out-of-energy" retirement reason exists to be recorded. -/
theorem out_of_energy_retires_without_event :
    ((race_step_core (fun _ _ => 1/2) retireCfg retireCore).cars.map
        (fun c => (c.is_active, c.energy_remaining))) = [(false, 0)]
    ∧ (race_step_core (fun _ _ => 1/2) retireCfg retireCore).race_events.event_log = []
    ∧ retireCore.race_events.event_log = [] := by
  refine ⟨?_, ?_, rfl⟩ <;>
    norm_num [race_step_core, sim_update_race_events, update_safety_car,
      sim_update_cars, update_car, get_safety_car_speed, mgr_get_power_kw,
      findMode, get_power_kw, am_is_active, sim_update_positions,
      assign_positions, sortByb, insertSorted, posKeyGE, listIndexOf,
      sim_calculate_gaps, findCar, sim_check_overtaking, overtakePairs,
      sim_update_attack_modes, mgr_update_all, amUpdate,
      sim_check_lap_completion, lapBody, sim_store_history, appendPosHistory,
      pymod, pyint, retireCfg, retireCore, retireCar, retireMode,
      mkRaceEvents, mkOvertakingModel, minInf,
      show AttackModeState.available ≠ AttackModeState.active from by simp]

/-- `AttackMode.update` only acts on an ACTIVE controller. -/
theorem amUpdate_not_active (am : AttackMode) (t : ℚ)
    (h : am.state ≠ AttackModeState.active) : (amUpdate am t).1 = am := by
  simp [amUpdate, h]

/-- `_update_race_events` never touches the attack-mode manager. -/
theorem mgr_events (f : RngF) (s : SimCore) :
    (sim_update_race_events f s).attack_mode_manager = s.attack_mode_manager := by
  cases hl : s.last_lap_checked
  · simp [sim_update_race_events, hl]
  · simp only [sim_update_race_events, hl]
    split_ifs <;> rfl

/-- `_update_cars` never touches the attack-mode manager. -/
theorem mgr_cars (cfg : SimCfg) (s : SimCore) :
    (sim_update_cars cfg s).attack_mode_manager = s.attack_mode_manager := rfl

/-- `_update_positions` never touches the attack-mode manager. -/
theorem mgr_pos (cfg : SimCfg) (s : SimCore) :
    (sim_update_positions cfg s).attack_mode_manager = s.attack_mode_manager := rfl

/-- `_check_overtaking` only queries the manager, never mutates it. -/
theorem mgr_overtake (f : RngF) (s : SimCore) :
    (sim_check_overtaking f s).attack_mode_manager = s.attack_mode_manager := by
  have key : ∀ (l : List (ℕ × ℕ)) (s' : SimCore),
      (overtakePairs f l s').attack_mode_manager = s'.attack_mode_manager := by
    intro l
    induction l with
    | nil => intro s'; rfl
    | cons p t ih =>
        intro s'
        obtain ⟨a, b⟩ := p
        simp only [overtakePairs]
        split_ifs <;> rw [ih]
  rw [sim_check_overtaking, key]

/-- `_update_attack_modes` is the single place the loop writes the
manager, and all it does is `update_all`. -/
theorem mgr_amupd (s : SimCore) :
    (sim_update_attack_modes s).attack_mode_manager
      = mgr_update_all s.attack_mode_manager s.race_state.race_time := rfl

/-- `_check_lap_completion` never touches the attack-mode manager. -/
theorem mgr_lap (cfg : SimCfg) (s : SimCore) :
    (sim_check_lap_completion cfg s).attack_mode_manager = s.attack_mode_manager := rfl

/-- `_store_history` never touches the attack-mode manager. -/
theorem mgr_store (s : SimCore) :
    (sim_store_history s).attack_mode_manager = s.attack_mode_manager := rfl

/-- Across one orchestrator step, the attack-mode managers evolve only by
`update_all` at some time. -/
theorem race_step_core_mgr (f : RngF) (cfg : SimCfg) (s : SimCore) :
    ∃ t : ℚ, (race_step_core f cfg s).attack_mode_manager
      = mgr_update_all s.attack_mode_manager t := by
  simp only [race_step_core]
  split_ifs
  · exact ⟨_, by rw [mgr_store, mgr_lap, mgr_amupd, mgr_overtake, mgr_pos,
      mgr_cars, mgr_events]⟩
  · exact ⟨_, by rw [mgr_lap, mgr_amupd, mgr_overtake, mgr_pos,
      mgr_cars, mgr_events]⟩

/-- One orchestrator step keeps every controller AVAILABLE with an empty
history, since `update_all` leaves non-ACTIVE controllers unchanged. -/
theorem race_step_core_idle (f : RngF) (cfg : SimCfg) (s : SimCore)
    (h : attackModesIdle s) : attackModesIdle (race_step_core f cfg s) := by
  obtain ⟨t, ht⟩ := race_step_core_mgr f cfg s
  intro am ham
  rw [ht] at ham
  simp only [mgr_update_all, List.mem_map] at ham
  obtain ⟨am0, ham0, heq⟩ := ham
  obtain ⟨hs0, hh0, hb0⟩ := h am0 ham0
  rw [amUpdate_not_active am0 t (by rw [hs0]; simp)] at heq
  rw [← heq]
  exact ⟨hs0, hh0, hb0⟩

/-- At construction, every controller is AVAILABLE with empty history and
the 200 kW base power. -/
theorem initSimCore_idle (f : RngF) (cfg : SimCfg) :
    attackModesIdle (initSimCore f cfg) := by
  have key : ∀ (l : List ℕ) (zs ze : ℚ) (sd : Option ℤ) (acc : List AttackMode × Rng),
      (∀ a ∈ acc.1, a.state = AttackModeState.available ∧ a.activation_history = []
        ∧ a.base_power_kw = 200) →
      ∀ a ∈ (l.foldl (fun (acc2 : List AttackMode × Rng) carId =>
          (acc2.1 ++ [(mkAttackMode f carId zs ze 200 sd acc2.2).1],
           (mkAttackMode f carId zs ze 200 sd acc2.2).2)) acc).1,
        a.state = AttackModeState.available ∧ a.activation_history = []
          ∧ a.base_power_kw = 200 := by
    intro l
    induction l with
    | nil => intro zs ze sd acc hacc a ha; exact hacc a ha
    | cons c t ih =>
        intro zs ze sd acc hacc a ha
        rw [List.foldl_cons] at ha
        refine ih zs ze sd _ ?_ a ha
        intro b hb
        simp only [List.mem_append, List.mem_singleton] at hb
        rcases hb with hb | hb
        · exact hacc b hb
        · subst hb
          refine ⟨?_, ?_, ?_⟩ <;> simp [mkAttackMode, npUniform, npRandom]
  intro am ham
  simp only [initSimCore, mkAttackModeManager] at ham
  refine key _ _ _ _ _ ?_ am ham
  intro a ha
  simp at ha

/-- The race-relevant core of a full step is computed by `race_step_core`
alone; the wall-clock reading feeds only the progress log. -/
theorem race_step_core_eq (f : RngF) (cfg : SimCfg) (wall : WallClock) (s : SimState) :
    (race_step f cfg wall s).core = race_step_core f cfg s.core := by
  simp only [race_step]
  split_ifs <;> rfl

/-- With every controller idle, the power query answers the 200 kW baseline
for every car id (including unknown ids, which default to 200). -/
theorem idle_power (mgr : AttackModeManager)
    (h : ∀ am ∈ mgr.attack_modes, am.state = AttackModeState.available
      ∧ am.activation_history = [] ∧ am.base_power_kw = 200) :
    ∀ i : ℕ, mgr_get_power_kw mgr i = 200 := by
  intro i
  unfold mgr_get_power_kw
  cases hf : findMode mgr i with
  | none => rfl
  | some am =>
      have hmem : am ∈ mgr.attack_modes := by
        unfold findMode at hf
        exact List.mem_of_find?_eq_some hf
      obtain ⟨hs, _, hb⟩ := h am hmem
      simp [get_power_kw, am_is_active, hs, hb]

/-- C10: the race loop never calls `activate`/`can_activate` on the
manager — its only write is `update_all` — so after any number of steps
(and in particular at the end of `run_race`) every car's controller is
still AVAILABLE with an empty activation history, and `get_power_kw`
answers the 200 kW baseline for every car at every step. -/
theorem race_loop_attack_modes_idle (f : RngF) (cfg : SimCfg) (wall : WallClock) (n : ℕ) :
    attackModesIdle ((race_step f cfg wall)^[n] (initSimState f cfg)).core
    ∧ (∀ am ∈ ((race_step f cfg wall)^[n]
        (initSimState f cfg)).core.attack_mode_manager.attack_modes,
        get_power_kw am = 200)
    ∧ (∀ i : ℕ, mgr_get_power_kw ((race_step f cfg wall)^[n]
        (initSimState f cfg)).core.attack_mode_manager i = 200)
    ∧ attackModesIdle (run_race f cfg wall).core := by
  have hP : ∀ m : ℕ,
      attackModesIdle ((race_step f cfg wall)^[m] (initSimState f cfg)).core := by
    intro m
    induction m with
    | zero => exact initSimCore_idle f cfg
    | succ m ih =>
        rw [Function.iterate_succ_apply', race_step_core_eq]
        exact race_step_core_idle f cfg _ ih
  refine ⟨hP n, ?_, ?_, hP (num_steps cfg)⟩
  · intro am ham
    obtain ⟨hs, _, hb⟩ := hP n am ham
    simp [get_power_kw, am_is_active, hs, hb]
  · exact idle_power _ (hP n)

/-- Runs whose cores agree stay core-equal under iteration, whatever
wall-clock streams they observe. -/
theorem iterate_core_eq (f : RngF) (cfg : SimCfg) (w1 w2 : WallClock) :
    ∀ (n : ℕ) (s1 s2 : SimState), s1.core = s2.core →
      ((race_step f cfg w1)^[n] s1).core = ((race_step f cfg w2)^[n] s2).core := by
  intro n
  induction n with
  | zero => intro s1 s2 h; exact h
  | succ n ih =>
      intro s1 s2 h
      rw [Function.iterate_succ_apply, Function.iterate_succ_apply]
      apply ih
      rw [race_step_core_eq, race_step_core_eq, h]

/-- C9: two races with identical configuration (car count, track, duration,
step size), the identical seeded random stream, and arbitrary — possibly
different — wall-clock readings produce identical race cores: identical
event logs, identical final standings and lap counts, identical position
histories and race-state histories.  Every stochastic draw is a function of
the seed and draw index alone, so re-running with the same seed reproduces
the same trace. -/
theorem run_race_deterministic (f : RngF) (cfg : SimCfg) (w1 w2 : WallClock) :
    (run_race f cfg w1).core = (run_race f cfg w2).core
    ∧ result_event_log (run_race f cfg w1) = result_event_log (run_race f cfg w2)
    ∧ final_positions (run_race f cfg w1) = final_positions (run_race f cfg w2)
    ∧ laps_completed (run_race f cfg w1) = laps_completed (run_race f cfg w2)
    ∧ (run_race f cfg w1).core.position_history
        = (run_race f cfg w2).core.position_history
    ∧ (run_race f cfg w1).core.race_history = (run_race f cfg w2).core.race_history := by
  have hcore : (run_race f cfg w1).core = (run_race f cfg w2).core := by
    unfold run_race
    exact iterate_core_eq f cfg w1 w2 (num_steps cfg) _ _ rfl
  refine ⟨hcore, ?_, ?_, ?_, ?_, ?_⟩
  · unfold result_event_log
    rw [hcore]
  · unfold final_positions
    rw [hcore]
  · unfold laps_completed
    rw [hcore]
  · rw [hcore]
  · rw [hcore]
